import Mathlib

/-!
Shallow embedding of `src/parse_hh.py`: a single-run batch job that pages
through an HTTP API, retries with backoff, filters records by city and
accumulates them, then (in `main`) optionally hands them to an Excel sink.
Machine-level Python semantics (dict `.get`, truthiness, `int()` parsing,
exception propagation) are modelled explicitly on a JSON-like value type.
-/

namespace ParseHH

/-- JSON-like values as decoded by `response.json()`: Python `None`, ints,
strings, lists and dicts (dicts as association lists; JSON object keys are
unique, so first-match lookup agrees with Python dict lookup). -/
inductive JVal where
  | null
  | num (n : Int)
  | str (s : String)
  | arr (elems : List JVal)
  | obj (fields : List (String × JVal))

/-- `MAX_RETRIES = 3` (line 14 of the source). -/
def MAX_RETRIES : Nat := 3

/-- `REQUEST_DELAY = 2` seconds (line 15 of the source). -/
def REQUEST_DELAY : Nat := 2

/-- Python truthiness of a value: `None`, `0`, `""`, `[]`, the empty dict are
falsy, everything else truthy. -/
def pyTruthy : JVal → Bool
  | .null => false
  | .num n => n != 0
  | .str s => !s.isEmpty
  | .arr xs => !xs.isEmpty
  | .obj d => !d.isEmpty

/-- `d.get(k, dflt)` on a dict. -/
def pyGetD (d : List (String × JVal)) (k : String) (dflt : JVal) : JVal :=
  match d.find? (fun p => p.1 == k) with
  | some kv => kv.2
  | none => dflt

/-- `d.get(k)` on a dict: absent keys give Python `None`, i.e. `JVal.null`
(a JSON `null` stored under the key gives the same result, as in Python). -/
def pyGet (d : List (String × JVal)) (k : String) : JVal :=
  pyGetD d k JVal.null

/-- `str(x)` as used by f-string interpolation. The claims only ever format
`None`, numbers and strings; list/dict values (which Python would render via
their `repr`) are rendered with bracketed element lists, close enough for
values no claim exercises. -/
def pyStrJ : JVal → String
  | .null => "None"
  | .num n => toString n
  | .str s => s
  | .arr _ => "[...]"
  | .obj _ => "\x7b...\x7d"

/-- One character of `str.lower()`, covering the ASCII and Cyrillic ranges,
the only alphabets this program manipulates (the Python lower method is full
Unicode but agrees on these ranges). -/
def pyLowerChar (c : Char) : Char :=
  if 65 ≤ c.toNat && c.toNat ≤ 90 then Char.ofNat (c.toNat + 32)
  else if 0x410 ≤ c.toNat && c.toNat ≤ 0x42F then Char.ofNat (c.toNat + 32)
  else if c.toNat == 0x401 then Char.ofNat 0x451
  else c

/-- `s.lower()`: `pyLowerChar` applied to every character. -/
def pyLower (s : String) : String :=
  ⟨s.data.map pyLowerChar⟩

/-- Does `hay` start with `needle` (on character lists)? -/
def startsWithL : List Char → List Char → Bool
  | [], _ => true
  | _ :: _, [] => false
  | a :: as2, b :: bs => a == b && startsWithL as2 bs

/-- Substring occurrence on character lists. -/
def containsSub (needle : List Char) : List Char → Bool
  | [] => needle.isEmpty
  | c :: rest => startsWithL needle (c :: rest) || containsSub needle rest

/-- Python `needle in hay` for strings. -/
def strContains (hay needle : String) : Bool :=
  containsSub needle.toList hay.toList

/-- Whitespace accepted around the argument of Python `int()`. -/
def isPySpace (c : Char) : Bool :=
  c == ' ' || c == '\t' || c == '\n' || c == '\r'

/-- ASCII decimal digit test. -/
def isPyDigit (c : Char) : Bool :=
  48 ≤ c.toNat && c.toNat ≤ 57

/-- Value of a non-empty digit string. -/
def digitsVal (cs : List Char) : Nat :=
  cs.foldl (fun a c => a * 10 + (c.toNat - 48)) 0

/-- Python `int(s)` on a string: optional surrounding whitespace, optional
sign, then decimal digits; `none` models the `ValueError` raised on anything
else. (Digit-group underscores, accepted by CPython, are not modelled; no
claim exercises them.) -/
def pyIntOfString (s : String) : Option Int :=
  let t := ((s.toList.dropWhile isPySpace).reverse.dropWhile isPySpace).reverse
  match t with
  | [] => none
  | '-' :: ds => if !ds.isEmpty && ds.all isPyDigit then some (-(digitsVal ds : Int)) else none
  | '+' :: ds => if !ds.isEmpty && ds.all isPyDigit then some ((digitsVal ds : Int)) else none
  | ds => if ds.all isPyDigit then some ((digitsVal ds : Int)) else none

/-- `format_salary` (source lines 53-68). The parameter is `Optional[Dict]`;
`if not salary` is Python truthiness (absent or empty dict), the `and` / `elif`
chain is truthiness of the retrieved `from` / `to` values, and the three
formatted branches interpolate `from`, `to` and `currency` exactly as the
f-strings in the source do (`currency` defaults to `""`, leaving a trailing
space). -/
def format_salary (salary : Option (List (String × JVal))) : String :=
  match salary with
  | none => "не указана"
  | some d =>
    if d.isEmpty then "не указана"
    else
      let salary_from := pyGet d "from"
      let salary_to := pyGet d "to"
      let currency := pyGetD d "currency" (JVal.str "")
      if pyTruthy salary_from && pyTruthy salary_to then
        pyStrJ salary_from ++ " - " ++ pyStrJ salary_to ++ " " ++ pyStrJ currency
      else if pyTruthy salary_from then
        "от " ++ pyStrJ salary_from ++ " " ++ pyStrJ currency
      else if pyTruthy salary_to then
        "до " ++ pyStrJ salary_to ++ " " ++ pyStrJ currency
      else "не указана"

/-- `.get(k, dflt)` called as a method on an arbitrary value: succeeds only on
dicts; `none` models the `AttributeError` raised on anything else (including
`None`). -/
def jGetAttrD (v : JVal) (k : String) (dflt : JVal) : Option JVal :=
  match v with
  | .obj d => some (pyGetD d k dflt)
  | _ => none

/-- `.lower()` called as a method on an arbitrary value: succeeds only on
strings; `none` models the `AttributeError` raised otherwise. -/
def jLowerStr : JVal → Option String
  | .str s => some (pyLower s)
  | _ => none

/-- `format_salary(item.get("salary"))` as called from `fetch_vacancies`: the
argument there is an arbitrary decoded value. A dict goes to `format_salary`
itself; a falsy non-dict (e.g. `None` for an absent or null field) takes the
`if not salary` branch; a truthy non-dict would raise `AttributeError` at
`salary.get("from")`, modelled as `none`. -/
def format_salary_j (v : JVal) : Option String :=
  match v with
  | .obj d => some (format_salary (some d))
  | w => if pyTruthy w then none else some (format_salary none)

/-- One row appended to `vacancies` (source lines 124-130). `salary` and
`city` are always strings in the source (`format_salary` returns a string and
`city` comes out of `.lower()`); the other fields hold whatever `item.get`
returned. -/
structure Vacancy where
  name : JVal
  employer : JVal
  salary : String
  city : String
  url : JVal

/-- The body of `for item in items` (source lines 115-137): build the city
from `item.get("area", {}).get("name", "").lower()`, keep the item only when
`"сыктывкар"` occurs in it, then build the row. `none` covers both the filter
`continue` and the per-item `except Exception` handler, which logs and skips
the record. -/
def extract_item (item : JVal) : Option Vacancy := do
  let area_info ← jGetAttrD item "area" (.obj [])
  let nameVal ← jGetAttrD area_info "name" (.str "")
  let city ← jLowerStr nameVal
  if strContains city "сыктывкар" then
    let title ← jGetAttrD item "name" (.str "Нет названия")
    let empVal ← jGetAttrD item "employer" (.obj [])
    let employer ← jGetAttrD empVal "name" (.str "Не указан")
    let salVal ← jGetAttrD item "salary" JVal.null
    let salary ← format_salary_j salVal
    let url ← jGetAttrD item "alternate_url" (.str "Нет ссылки")
    some ⟨title, employer, salary, city, url⟩
  else
    none

/-- Outcome of one `requests.get` call: a decoded 2xx body, a 429 with an
optional `Retry-After` header value, or a `requests.RequestException`
(connection error, timeout, `raise_for_status` on a bad status, or a
JSON decode error — all subclasses of `RequestException`). -/
inductive HttpOutcome where
  | ok (body : JVal)
  | rateLimited (retryAfter : Option String)
  | reqError

/-- Python exceptions that escape `fetch_vacancies` because they are not
`requests.RequestException`: `ValueError` from `int(...)` on a bad
`Retry-After`, `AttributeError` from `.get` on a non-dict JSON body,
`TypeError` from comparing or iterating unsuitable values. -/
inductive PyErr where
  | valueError
  | attributeError
  | typeError

/-- Observable events of a run: one HTTP request (page, 1-based attempt
number) or one `time.sleep(n)`. -/
inductive Ev where
  | req (page : Nat) (attempt : Nat)
  | sleep (n : Int)

/-- `int(response.headers.get("Retry-After", REQUEST_DELAY))` (source line
91): the missing header falls back to the int `REQUEST_DELAY`; a present
header is a string fed to `int()`, whose failure is a `ValueError`. -/
def retryAfterVal (hdr : Option String) : Except PyErr Int :=
  match hdr with
  | none => .ok (REQUEST_DELAY : Int)
  | some s =>
    match pyIntOfString s with
    | some n => .ok n
    | none => .error .valueError

/-- The retry loop `for attempt in range(1, MAX_RETRIES + 1)` (source lines
86-105), unrolled from `attempt` with `remaining` iterations left
(`remaining = MAX_RETRIES + 1 - attempt` at every call). A 429 sleeps the
`Retry-After` value and `continue`s — to the *next* `attempt`; a
`RequestException` sleeps `REQUEST_DELAY * attempt` when `attempt <
MAX_RETRIES` and also moves on; a success breaks with the body. Result
`none` is `success = False` after the loop. -/
def fetchPageGo (outc : Nat → HttpOutcome) (p : Nat) :
    Nat → Nat → Except PyErr (Option JVal × List Ev)
  | _, 0 => .ok (none, [])
  | attempt, remaining + 1 =>
    match outc attempt with
    | .ok body => .ok (some body, [.req p attempt])
    | .rateLimited hdr =>
      match retryAfterVal hdr with
      | .error e => .error e
      | .ok ra =>
        match fetchPageGo outc p (attempt + 1) remaining with
        | .error e => .error e
        | .ok (r, evs) => .ok (r, .req p attempt :: .sleep ra :: evs)
    | .reqError =>
      let backoff : List Ev :=
        if attempt < MAX_RETRIES then [.sleep ((REQUEST_DELAY * attempt : Nat) : Int)] else []
      match fetchPageGo outc p (attempt + 1) remaining with
      | .error e => .error e
      | .ok (r, evs) => .ok (r, .req p attempt :: (backoff ++ evs))

/-- The fetch of one page: attempts numbered 1 to `MAX_RETRIES`. -/
def fetchPage (outc : Nat → HttpOutcome) (p : Nat) :
    Except PyErr (Option JVal × List Ev) :=
  fetchPageGo outc p 1 MAX_RETRIES

/-- `for item in items`: iterating a list yields its elements; a string
yields its characters, a dict its keys; iterating `None` or a number raises
`TypeError`. -/
def pyIter : JVal → Option (List JVal)
  | .arr xs => some xs
  | .str s => some (s.toList.map (fun c => .str (String.singleton c)))
  | .obj d => some (d.map (fun kv => .str kv.1))
  | _ => none

/-- Mutable state of the `while page < total_pages` loop (source lines
72-74): `total` holds whatever `data.get("pages", 0)` returned (`num 1`
initially from the literal `total_pages = 1`); `evs` is the trace of requests
and sleeps so far. -/
structure RunState where
  vacancies : List Vacancy
  page : Nat
  total : JVal
  evs : List Ev

/-- The pagination loop (source lines 77-140), driven by `fuel` because the
source loop need not terminate when the reported page count keeps growing:
`none` means the loop has not finished within `fuel` iterations. Each iteration: compare
`page < total_pages` (a `TypeError` if `total` is not a number), fetch the
page; on `success = False` advance the page and `continue` — skipping the
inter-page sleep of line 140; on success read `pages` and `items` from the
body (an `AttributeError` if the body is not a dict), extract and append the
matching records, advance the page and sleep `REQUEST_DELAY`. -/
def runLoop (env : Nat → Nat → HttpOutcome) :
    Nat → RunState → Option (Except PyErr RunState)
  | 0, _ => none
  | fuel + 1, st =>
    match st.total with
    | .num t =>
      if (st.page : Int) < t then
        match fetchPage (env st.page) st.page with
        | .error e => some (.error e)
        | .ok (none, evs) =>
          runLoop env fuel
            { st with page := st.page + 1, evs := st.evs ++ evs }
        | .ok (some body, evs) =>
          match body with
          | .obj d =>
            match pyIter (pyGetD d "items" (.arr [])) with
            | none => some (.error .typeError)
            | some items =>
              runLoop env fuel
                { vacancies := st.vacancies ++ items.filterMap extract_item,
                  page := st.page + 1,
                  total := pyGetD d "pages" (.num 0),
                  evs := st.evs ++ evs ++ [.sleep (REQUEST_DELAY : Int)] }
          | _ => some (.error .attributeError)
      else some (.ok st)
    | _ => some (.error .typeError)

/-- `fetch_vacancies()` (source lines 70-143) run against an environment
mapping (page, attempt) to the outcome of that HTTP request; the loop needs
at most `fuel` iterations. `some (.ok st)` is a normal return of
`st.vacancies`; `some (.error e)` is an exception escaping the function;
`none` means the loop was still running after `fuel` iterations. -/
def fetch_vacancies (env : Nat → Nat → HttpOutcome) (fuel : Nat) :
    Option (Except PyErr RunState) :=
  runLoop env fuel ⟨[], 0, .num 1, []⟩

/-- The run against `env` finishes (normally or by an escaping exception)
within some finite number of loop iterations. -/
def Terminates (env : Nat → Nat → HttpOutcome) : Prop :=
  ∃ fuel r, fetch_vacancies env fuel = some r

/-- The `pages` value a response body would install as the loop bound: the
`data.get("pages", 0)` of a successful dict body when that is a number, and
`0` otherwise (non-number bounds stop the loop with a `TypeError` on the next
comparison, so `0` is a sound stand-in for bounding arguments). -/
def pagesOf : HttpOutcome → Int
  | .ok (.obj d) =>
    match pyGetD d "pages" (.num 0) with
    | .num t => t
    | _ => 0
  | _ => 0

/-- An optional salary bound is truthy when it is present and non-zero,
mirroring Python truthiness of the number stored in the dict. -/
def truthyNum : Option Int → Bool
  | some n => n != 0
  | none => false

/-- A `SalaryRange` as the data model of the spec describes it: `from` and `to`
are numbers or absent, `currency` a string or absent (`from` is a Lean
keyword, hence the `Val` suffixes). -/
structure SalaryRange where
  fromVal : Option Int
  toVal : Option Int
  currencyVal : Option String

/-- The dict actually passed to `format_salary` for a `SalaryRange`. -/
def SalaryRange.toDict (r : SalaryRange) : List (String × JVal) :=
  (match r.fromVal with | some n => [("from", JVal.num n)] | none => []) ++
    (match r.toVal with | some n => [("to", JVal.num n)] | none => []) ++
      (match r.currencyVal with | some c => [("currency", JVal.str c)] | none => [])

/-- The amended branch table for `format_salary` over a `SalaryRange`,
written from the §4.1 table of the spec with "present" corrected to "present and
non-zero" (which the counterexample below forces): placeholder when both
bounds are falsy, one-sided strings otherwise, currency defaulting to the
empty string with its trailing space. -/
def formatSalarySpec (r : SalaryRange) : String :=
  let cur := r.currencyVal.getD ""
  if truthyNum r.fromVal && truthyNum r.toVal then
    toString (r.fromVal.getD 0) ++ " - " ++ toString (r.toVal.getD 0) ++ " " ++ cur
  else if truthyNum r.fromVal then
    "от " ++ toString (r.fromVal.getD 0) ++ " " ++ cur
  else if truthyNum r.toVal then
    "до " ++ toString (r.toVal.getD 0) ++ " " ++ cur
  else "не указана"

/-- Observable filesystem/sink events of `main` and `save_to_excel`:
creating the output directory, the file-lock wait, the Excel write, and a
logged error swallowed by a handler. -/
inductive MainEv where
  | mkdirEv
  | waitEv
  | writeEv
  | logErrEv

/-- The filesystem facts `save_to_excel` consults: whether the destination
folder exists, whether the file exists, whether the lock-wait eventually
finds it writable, and whether the bulk write raises. -/
structure FsModel where
  folderExists : Bool
  fileExists : Bool
  fileWritable : Bool
  writeFails : Bool

/-- `ensure_folder_exists` (source lines 26-31): creates the directory only
when missing. -/
def ensure_folder_exists (fs : FsModel) : List MainEv :=
  if fs.folderExists then [] else [.mkdirEv]

/-- `save_to_excel` (source lines 145-158): ensure the folder; when the file
exists, poll-wait for it (`wait_for_file`), giving up with a logged error if
it stays locked; otherwise write the sheet, logging any write exception. -/
def save_to_excel (fs : FsModel) : List MainEv :=
  ensure_folder_exists fs ++
    if fs.fileExists && !fs.fileWritable then [.waitEv, .logErrEv]
    else
      (if fs.fileExists then [.waitEv] else []) ++
        (if fs.writeFails then [.logErrEv] else [.writeEv])

/-- `main` (source lines 160-173): run `fetch_vacancies`; call
`save_to_excel` only when the returned list is truthy (non-empty); any
escaping exception is caught by the top-level handler and logged. `none`
fuel exhaustion produces no events (the loop is still running). -/
def main_model (env : Nat → Nat → HttpOutcome) (fuel : Nat) (fs : FsModel) :
    List MainEv :=
  match fetch_vacancies env fuel with
  | some (.ok st) => if st.vacancies.isEmpty then [] else save_to_excel fs
  | some (.error _) => [.logErrEv]
  | none => []

/-! Concrete inputs used by counterexamples and witnesses. -/

/-- A well-formed API item located in Сыктывкар with every field present. -/
def item0 : JVal :=
  .obj [("area", .obj [("name", .str "Сыктывкар")]),
        ("name", .str "Инженер"),
        ("employer", .obj [("name", .str "ООО Ромашка")]),
        ("salary", .obj [("from", .num 50000), ("to", .num 70000), ("currency", .str "RUR")]),
        ("alternate_url", .str "https://hh.ru/vacancy/1")]

/-- The record `extract_item` produces from `item0`. -/
def vac0 : Vacancy :=
  ⟨.str "Инженер", .str "ООО Ромашка", "50000 - 70000 RUR", "сыктывкар",
    .str "https://hh.ru/vacancy/1"⟩

/-- A matching item with only `area` present, so every other field takes its
default. -/
def item1 : JVal :=
  .obj [("area", .obj [("name", .str "сыктывкар")])]

/-- The all-defaults record `extract_item` produces from `item1`. -/
def vac1 : Vacancy :=
  ⟨.str "Нет названия", .str "Не указан", "не указана", "сыктывкар",
    .str "Нет ссылки"⟩

/-- A matching item whose `employer` is present but `null`. -/
def itemEmployerNull : JVal :=
  .obj [("area", .obj [("name", .str "сыктывкар")]), ("employer", .null)]

/-- A matching item whose `alternate_url` is present but `null`. -/
def itemUrlNull : JVal :=
  .obj [("area", .obj [("name", .str "сыктывкар")]), ("alternate_url", .null)]

/-- Page-0 body of the end-to-end scenario: two pages reported, one matching
item. -/
def body0 : JVal :=
  .obj [("pages", .num 2), ("items", .arr [item0])]

/-- End-to-end environment: page 0 succeeds immediately with `body0`; every
request for any later page fails. -/
def envC9 : Nat → Nat → HttpOutcome :=
  fun p _ => if p == 0 then .ok body0 else .reqError

/-- Environment whose every response reports one more page than would let
the loop stop: each page `p` succeeds with `pages = p + 2` and no items. -/
def envGrow : Nat → Nat → HttpOutcome :=
  fun p _ => .ok (.obj [("pages", .num ((p : Int) + 2)), ("items", .arr [])])

/-- A single successful page containing `item1` and reporting one page. -/
def envOnePage : Nat → Nat → HttpOutcome :=
  fun _ _ => .ok (.obj [("pages", .num 1), ("items", .arr [item1])])

/-! ## Helper lemmas -/

/-- A page whose every request raises `RequestException` is reported failed
after exactly `MAX_RETRIES` requests, with backoff sleeps
`REQUEST_DELAY * 1` and `REQUEST_DELAY * 2` between consecutive attempts. -/
theorem fetchPage_allFail (outc : Nat → HttpOutcome) (p : Nat)
    (h : ∀ a, outc a = .reqError) :
    fetchPage outc p = .ok (none, [.req p 1, .sleep 2, .req p 2, .sleep 4, .req p 3]) := by
  have hf : outc = fun _ => HttpOutcome.reqError := funext h
  subst hf
  rfl

/-- A body returned by the attempt loop was the body of a 2xx response of
some request. -/
theorem fetchPageGo_ok_attempt (outc : Nat → HttpOutcome) (p : Nat) :
    ∀ rem attempt body evs,
      fetchPageGo outc p attempt rem = .ok (some body, evs) → ∃ a, outc a = .ok body := by
  intro rem
  induction rem with
  | zero =>
    intro attempt body evs h
    simp [fetchPageGo] at h
  | succ rem ih =>
    intro attempt body evs h
    rw [fetchPageGo] at h
    rcases hout : outc attempt with b | hdr | _ <;> simp only [hout] at h
    · simp only [Except.ok.injEq, Prod.mk.injEq, Option.some.injEq] at h
      exact ⟨attempt, by rw [hout, h.1]⟩
    · rcases hra : retryAfterVal hdr with e | ra <;> simp only [hra] at h
      · cases h
      · rcases hrec : fetchPageGo outc p (attempt + 1) rem with e2 | ⟨r, evs2⟩ <;>
          simp only [hrec] at h
        · cases h
        · simp only [Except.ok.injEq, Prod.mk.injEq] at h
          obtain ⟨hr, -⟩ := h
          subst hr
          exact ih (attempt + 1) body evs2 hrec
    · rcases hrec : fetchPageGo outc p (attempt + 1) rem with e2 | ⟨r, evs2⟩ <;>
        simp only [hrec] at h
      · cases h
      · simp only [Except.ok.injEq, Prod.mk.injEq] at h
        obtain ⟨hr, -⟩ := h
        subst hr
        exact ih (attempt + 1) body evs2 hrec

/-- With fuel left, a loop state whose bound is not a number stops at once
with the `TypeError` of the `page < total_pages` comparison. -/
theorem runLoop_nonnum_total (env : Nat → Nat → HttpOutcome) (st : RunState) (fuel : Nat)
    (h1 : 1 ≤ fuel) (h : ∀ n, st.total ≠ .num n) : runLoop env fuel st ≠ none := by
  cases fuel with
  | zero => omega
  | succ f =>
    rw [runLoop]
    rcases htot : st.total with _ | n | s | xs | d
    · simp
    · exact absurd htot (h n)
    · simp
    · simp
    · simp

/-- When every reported `pages` value is at most `P`, the loop
finishes (normally or with an escaping exception) once the fuel covers
`max 1 P` iterations beyond the current page. -/
theorem runLoop_terminates (env : Nat → Nat → HttpOutcome) (P : Int)
    (H : ∀ p a, pagesOf (env p a) ≤ P) :
    ∀ (fuel : Nat) (st : RunState) (t : Int), st.total = .num t → t ≤ max 1 P →
      max 1 P + 1 ≤ (st.page : Int) + (fuel : Int) → 1 ≤ fuel →
      runLoop env fuel st ≠ none := by
  have hM1 : (1 : Int) ≤ max 1 P := le_max_left _ _
  have hMP : P ≤ max 1 P := le_max_right _ _
  intro fuel
  induction fuel with
  | zero => intro st t _ _ _ h4; omega
  | succ fuel ih =>
    intro st t htot hle hfuel _
    rw [runLoop, htot]
    dsimp only
    by_cases hlt : (st.page : Int) < t
    · rw [if_pos hlt]
      have hfuel1 : 1 ≤ fuel := by
        generalize hMe : max 1 P = M at *
        push_cast at hfuel
        omega
      rcases hfp : fetchPage (env st.page) st.page with e | ⟨ob, evs⟩
      · simp
      · rcases ob with _ | body
        · dsimp only
          exact ih _ t rfl hle (by push_cast at hfuel ⊢; omega) hfuel1
        · rcases body with _ | n | s | xs | d
          · simp
          · simp
          · simp
          · simp
          · dsimp only
            rcases hit : pyIter (pyGetD d "items" (.arr [])) with _ | items
            · simp
            · dsimp only
              rw [fetchPage] at hfp
              obtain ⟨a, ha⟩ := fetchPageGo_ok_attempt (env st.page) st.page _ _ _ _ hfp
              have hpb := H st.page a
              rw [ha] at hpb
              rcases hpg : pyGetD d "pages" (.num 0) with _ | t2 | s2 | xs2 | d2
              · refine runLoop_nonnum_total env _ fuel hfuel1 ?_
                intro n hn
                simp at hn
              · simp only [pagesOf, hpg] at hpb
                refine ih _ t2 rfl (le_trans hpb hMP) ?_ hfuel1
                generalize hMe : max 1 P = M at *
                push_cast at hfuel ⊢
                omega
              · refine runLoop_nonnum_total env _ fuel hfuel1 ?_
                intro n hn
                simp at hn
              · refine runLoop_nonnum_total env _ fuel hfuel1 ?_
                intro n hn
                simp at hn
              · refine runLoop_nonnum_total env _ fuel hfuel1 ?_
                intro n hn
                simp at hn
    · rw [if_neg hlt]
      simp

/-- Any per-record property guaranteed by `extract_item` is an invariant of
the accumulated `vacancies` list across the whole loop. -/
theorem runLoop_vacancies_invariant (env : Nat → Nat → HttpOutcome) (P : Vacancy → Prop)
    (hP : ∀ item rec, extract_item item = some rec → P rec) :
    ∀ fuel st stf, runLoop env fuel st = some (.ok stf) →
      (∀ r ∈ st.vacancies, P r) → ∀ r ∈ stf.vacancies, P r := by
  intro fuel
  induction fuel with
  | zero => intro st stf h; cases h
  | succ fuel ih =>
    intro st stf h hst
    rw [runLoop] at h
    split at h
    · split at h
      · split at h
        · cases h
        · exact ih _ _ h hst
        · split at h
          · split at h
            · cases h
            · refine ih _ _ h ?_
              intro r hr
              rcases List.mem_append.mp hr with hr | hr
              · exact hst r hr
              · rcases List.mem_filterMap.mp hr with ⟨item, -, hx⟩
                exact hP item r hx
          · cases h
      · injection h with h
        injection h with h
        subst h
        exact hst
    · cases h

/-- `extract_item` only produces records whose (lowercased) city contains
the target keyword: the filter at source line 121 guards the append. -/
theorem extract_item_city (item : JVal) (rec : Vacancy)
    (h : extract_item item = some rec) : strContains rec.city "сыктывкар" = true := by
  simp only [extract_item, bind, Option.bind_eq_some] at h
  obtain ⟨ai, -, nv, -, city, -, h⟩ := h
  by_cases hc : strContains city "сыктывкар"
  · rw [if_pos hc] at h
    simp only [bind, Option.bind_eq_some] at h
    obtain ⟨t, -, e1, -, e2, -, s1, -, s2, -, u, -, h⟩ := h
    injection h with h
    subst h
    exact hc
  · rw [if_neg hc] at h
    cases h

/-- Started at any page `p` with bound `p + 1`, the loop against `envGrow`
never stops: each success re-installs a bound one past the next page. -/
theorem envGrow_never_stops : ∀ (fuel p : Nat) (acc : List Vacancy) (evs : List Ev),
    runLoop envGrow fuel ⟨acc, p, .num ((p : Int) + 1), evs⟩ = none := by
  intro fuel
  induction fuel with
  | zero => intro p acc evs; rfl
  | succ fuel ih =>
    intro p acc evs
    rw [runLoop]
    dsimp only
    rw [if_pos (by omega : ((p : Nat) : Int) < (p : Int) + 1)]
    have hfp : fetchPage (envGrow p) p =
        .ok (some (.obj [("pages", .num ((p : Int) + 2)), ("items", .arr [])]), [.req p 1]) := rfl
    rw [hfp]
    dsimp only
    have hit : pyIter (pyGetD [("pages", JVal.num ((p : Int) + 2)), ("items", .arr [])]
        "items" (.arr [])) = some [] := rfl
    rw [hit]
    dsimp only
    have hpg : pyGetD [("pages", JVal.num ((p : Int) + 2)), ("items", .arr [])]
        "pages" (.num 0) = .num ((p : Int) + 2) := rfl
    rw [hpg]
    simp only [List.filterMap_nil, List.append_nil]
    rw [show ((p : Int) + 2) = (((p + 1 : Nat) : Int) + 1) by push_cast; ring]
    exact ih (p + 1) acc _

/-! ## Claim theorems -/

/-- C1, amended: on an HTTP 429 the fetcher sleeps the parsed `Retry-After`
duration (or `REQUEST_DELAY` when the header is absent) and then moves on to
the NEXT attempt — the `continue` at source line 94 continues the `for
attempt` loop, so each 429 consumes one of the `MAX_RETRIES` attempts — and
a page answered only with header-less 429s is reported failed after
`MAX_RETRIES` attempts, each preceded by a default `REQUEST_DELAY` sleep. -/
theorem c1_rate_limit_consumes_attempt :
    (∀ (outc : Nat → HttpOutcome) (p attempt rem : Nat) (hdr : Option String) (ra : Int),
        outc attempt = .rateLimited hdr → retryAfterVal hdr = .ok ra →
        fetchPageGo outc p attempt (rem + 1) =
          (match fetchPageGo outc p (attempt + 1) rem with
           | .error e => .error e
           | .ok (r, evs) => .ok (r, .req p attempt :: .sleep ra :: evs))) ∧
    (∀ (outc : Nat → HttpOutcome) (p : Nat), (∀ a, outc a = .rateLimited none) →
        fetchPage outc p =
          .ok (none, [.req p 1, .sleep 2, .req p 2, .sleep 2, .req p 3, .sleep 2])) := by
  constructor
  · intro outc p attempt rem hdr ra h1 h2
    rw [fetchPageGo, h1]
    dsimp only
    rw [h2]
  · intro outc p h
    have hf : outc = fun _ => HttpOutcome.rateLimited none := funext h
    subst hf
    rfl

/-- C1 counterexample: a page whose first three requests get 429 with
`Retry-After: 5` is skipped — `fetchPage` returns the failure signal after
three requests — even though the fourth request would have succeeded. The
429s consumed all retry attempts, refuting the claim that no sequence of 429
responses reduces the remaining attempts for the page. -/
theorem c1_counterexample :
    fetchPage (fun a => if a ≤ 3 then .rateLimited (some "5") else .ok (.obj [])) 0 =
      .ok (none, [.req 0 1, .sleep 5, .req 0 2, .sleep 5, .req 0 3, .sleep 5]) := rfl

/-- C1 witness: both parts of the amended theorem at concrete inputs. -/
theorem c1_witness :
    fetchPageGo (fun _ => .rateLimited (some "7")) 0 1 (2 + 1) =
      .ok (none, [.req 0 1, .sleep 7, .req 0 2, .sleep 7, .req 0 3, .sleep 7]) ∧
    fetchPage (fun _ => .rateLimited none) 0 =
      .ok (none, [.req 0 1, .sleep 2, .req 0 2, .sleep 2, .req 0 3, .sleep 2]) :=
  ⟨c1_rate_limit_consumes_attempt.1 (fun _ => .rateLimited (some "7")) 0 1 2 (some "7") 7
      rfl rfl,
    c1_rate_limit_consumes_attempt.2 (fun _ => .rateLimited none) 0 (fun _ => rfl)⟩

/-- C2, amended: `format_salary` is total, and over the `SalaryRange`
domain of the spec it matches the §4.1 branch table with "present" read as "present and
non-zero" (Python truthiness): the placeholder when the input is absent or
both bounds are falsy, the one-sided and two-sided strings otherwise, and
currency defaulting to the empty string, leaving a trailing space. -/
theorem c2_format_salary_table :
    (∀ r : SalaryRange, format_salary (some r.toDict) = formatSalarySpec r) ∧
    format_salary none = "не указана" := by
  constructor
  · intro r
    rcases r with ⟨f, t, c⟩
    cases f <;> cases t <;> cases c <;>
      simp [format_salary, SalaryRange.toDict, formatSalarySpec, pyGet, pyGetD, pyTruthy,
        pyStrJ, truthyNum, List.find?, Option.getD]
  · rfl

/-- C2 counterexample: with `from` present as `0` and `to` present, the claim
demands the two-sided string "0 - 70000 RUR", but `0` is falsy in Python, so
the code produces the `up to` branch instead. -/
theorem c2_counterexample :
    format_salary (some [("from", .num 0), ("to", .num 70000), ("currency", .str "RUR")]) =
      "до 70000 RUR" ∧
    format_salary (some [("from", .num 0), ("to", .num 70000), ("currency", .str "RUR")]) ≠
      "0 - 70000 RUR" :=
  ⟨rfl, by decide⟩

/-- C3, amended: conditioned on a record being produced, a missing
`employer` key, a missing-or-null `salary`, and a missing `alternate_url`
key each yield the documented default. (A present-but-null `employer` or
`alternate_url` does not: see the counterexample.) -/
theorem c3_missing_field_defaults (d : List (String × JVal)) (rec : Vacancy)
    (h : extract_item (.obj d) = some rec) :
    (d.find? (fun p => p.1 == "employer") = none → rec.employer = .str "Не указан") ∧
    (pyGet d "salary" = JVal.null → rec.salary = "не указана") ∧
    (d.find? (fun p => p.1 == "alternate_url") = none → rec.url = .str "Нет ссылки") := by
  simp only [extract_item, bind, Option.bind_eq_some] at h
  obtain ⟨ai, -, nv, -, city, -, h⟩ := h
  by_cases hc : strContains city "сыктывкар"
  · rw [if_pos hc] at h
    simp only [bind, Option.bind_eq_some] at h
    obtain ⟨t, -, e1, he1, e2, he2, s1, hs1, s2, hs2, u, hu, h⟩ := h
    injection h with h
    subst h
    simp only [jGetAttrD, Option.some.injEq] at he1 hs1 hu
    subst he1
    subst hs1
    subst hu
    refine ⟨?_, ?_, ?_⟩
    · intro hemp
      simp only [pyGetD, hemp] at he2
      simp only [jGetAttrD, pyGetD, List.find?, Option.some.injEq] at he2
      exact he2.symm
    · intro hsal
      rw [pyGet] at hsal
      rw [hsal] at hs2
      simp only [format_salary_j, pyTruthy] at hs2
      injection hs2 with hs2
      exact hs2.symm
    · intro hurl
      simp only [pyGetD, hurl]
  · rw [if_neg hc] at h
    cases h

/-- C3 counterexample: an item whose `employer` is present but `null` makes
`item.get("employer", {}).get(...)` raise `AttributeError`, so the record is
SKIPPED rather than given the default; and an item whose `alternate_url` is
present but `null` produces a record whose url is `null`, not the
placeholder `"Нет ссылки"`. Both contradict "produces an OutputRecord
containing the configured default placeholder for that field". -/
theorem c3_counterexample :
    extract_item itemEmployerNull = none ∧
    extract_item itemUrlNull =
      some ⟨.str "Нет названия", .str "Не указан", "не указана", "сыктывкар", .null⟩ ∧
    JVal.null ≠ JVal.str "Нет ссылки" :=
  ⟨rfl, rfl, fun h => nomatch h⟩

/-- C3 witness: the amended theorem applied to the all-defaults item. -/
theorem c3_witness :
    vac1.employer = .str "Не указан" ∧ vac1.salary = "не указана" ∧
    vac1.url = .str "Нет ссылки" :=
  ⟨(c3_missing_field_defaults [("area", .obj [("name", .str "сыктывкар")])] vac1 rfl).1 rfl,
    (c3_missing_field_defaults [("area", .obj [("name", .str "сыктывкар")])] vac1 rfl).2.1 rfl,
    (c3_missing_field_defaults [("area", .obj [("name", .str "сыктывкар")])] vac1 rfl).2.2 rfl⟩

/-- C4, amended: within one loop iteration, the inter-page politeness sleep
`REQUEST_DELAY` is appended to the trace only when the page fetch succeeded;
a failed (skipped) page takes the `continue` at source line 110, advancing
the page index with no politeness sleep. -/
theorem c4_sleep_only_after_success (env : Nat → Nat → HttpOutcome) (fuel : Nat)
    (st : RunState) (t : Int) (h : st.total = .num t) (h2 : (st.page : Int) < t) :
    (∀ evs, fetchPage (env st.page) st.page = .ok (none, evs) →
        runLoop env (fuel + 1) st =
          runLoop env fuel { st with page := st.page + 1, evs := st.evs ++ evs }) ∧
    (∀ d evs items, fetchPage (env st.page) st.page = .ok (some (.obj d), evs) →
        pyIter (pyGetD d "items" (.arr [])) = some items →
        runLoop env (fuel + 1) st =
          runLoop env fuel
            ⟨st.vacancies ++ items.filterMap extract_item, st.page + 1,
              pyGetD d "pages" (.num 0),
              st.evs ++ evs ++ [.sleep ((REQUEST_DELAY : Nat) : Int)]⟩) := by
  constructor
  · intro evs hf
    rw [runLoop, h]
    simp only [hf]
    rw [if_pos h2]
  · intro d evs items hf hi
    rw [runLoop, h]
    simp only [hf, hi]
    rw [if_pos h2]

/-- C4 counterexample: a run whose single iteration skips page 0 after three
failed requests. The final trace is exactly the three requests and the two
backoff sleeps — there is no politeness `sleep REQUEST_DELAY` event after the
iteration, refuting "sleeps the fixed inter-page delay after every iteration
regardless of outcome". -/
theorem c4_counterexample :
    fetch_vacancies (fun _ _ => .reqError) 2 =
      some (.ok ⟨[], 1, .num 1, [.req 0 1, .sleep 2, .req 0 2, .sleep 4, .req 0 3]⟩) := rfl

/-- C4 witness: the failed-page half of the amended theorem at a concrete
state, showing the skip appends only the fetch events. -/
theorem c4_witness :
    runLoop (fun _ _ => .reqError) 2 ⟨[], 0, .num 1, []⟩ =
      runLoop (fun _ _ => .reqError) 1
        ⟨[], 1, .num 1, [.req 0 1, .sleep 2, .req 0 2, .sleep 4, .req 0 3]⟩ :=
  (c4_sleep_only_after_success (fun _ _ => .reqError) 1 ⟨[], 0, .num 1, []⟩ 1 rfl
      (by decide)).1
    [.req 0 1, .sleep 2, .req 0 2, .sleep 4, .req 0 3] rfl

/-- C5, amended: the `Retry-After` header falls back to `REQUEST_DELAY` only
when ABSENT; a present header is fed to `int()`, which on an unparseable
string raises `ValueError` — not a `requests.RequestException` — so it
escapes the retry loop and aborts `fetch_vacancies` (it is caught only by the top-level
handler in `main`). -/
theorem c5_retry_after_unparseable_raises :
    retryAfterVal none = .ok ((REQUEST_DELAY : Nat) : Int) ∧
    (∀ (s : String) (n : Int), pyIntOfString s = some n → retryAfterVal (some s) = .ok n) ∧
    (∀ s : String, pyIntOfString s = none → retryAfterVal (some s) = .error .valueError) ∧
    (∀ (env : Nat → Nat → HttpOutcome) (fuel : Nat) (s : String),
        pyIntOfString s = none → env 0 1 = .rateLimited (some s) →
        fetch_vacancies env (fuel + 1) = some (.error .valueError)) := by
  refine ⟨rfl, ?_, ?_, ?_⟩
  · intro s n h
    simp [retryAfterVal, h]
  · intro s h
    simp [retryAfterVal, h]
  · intro env fuel s h1 h2
    have hfp : fetchPage (env 0) 0 = .error .valueError := by
      rw [fetchPage, show MAX_RETRIES = 2 + 1 from rfl, fetchPageGo, h2]
      simp [retryAfterVal, h1]
    simp [fetch_vacancies, runLoop, hfp]

/-- C5 counterexample: a 429 whose `Retry-After` is the unparseable string
"soon" makes the run abort with `ValueError` instead of falling back to the
default delay and retrying, refuting "reading the header never raises an
error that escapes the page-fetch loop". -/
theorem c5_counterexample :
    fetch_vacancies (fun _ _ => .rateLimited (some "soon")) 1 =
      some (.error .valueError) := rfl

/-- C5 witness: the parse cases and the propagation case of the amended
theorem at concrete inputs. -/
theorem c5_witness :
    retryAfterVal (some "5") = .ok 5 ∧
    fetch_vacancies (fun _ _ => .rateLimited (some "5x")) 3 =
      some (.error .valueError) :=
  ⟨c5_retry_after_unparseable_raises.2.1 "5" 5 rfl,
    c5_retry_after_unparseable_raises.2.2.2 (fun _ _ => .rateLimited (some "5x")) 2 "5x"
      rfl rfl⟩

/-- C6, amended: the loop terminates whenever the `pages` values reported by
the responses are bounded by a fixed `P` (in particular when the API reports
a stable page count); and in the all-pages-fail case the bound keeps its
initial value 1, exactly one iteration runs (three requests for page 0), and
the returned sequence is empty. Unbounded growing `pages` values defeat
termination: see the counterexample. -/
theorem c6_termination :
    (∀ (env : Nat → Nat → HttpOutcome) (P : Int),
        (∀ p a, pagesOf (env p a) ≤ P) → Terminates env) ∧
    (∀ (env : Nat → Nat → HttpOutcome) (fuel : Nat), (∀ p a, env p a = .reqError) →
        fetch_vacancies env (fuel + 2) =
          some (.ok ⟨[], 1, .num 1, [.req 0 1, .sleep 2, .req 0 2, .sleep 4, .req 0 3]⟩)) := by
  constructor
  · intro env P H
    have hM1 : (1 : Int) ≤ max 1 P := le_max_left _ _
    have hMn : ((max 1 P).toNat : Int) = max 1 P := Int.toNat_of_nonneg (by omega)
    have hrun := runLoop_terminates env P H ((max 1 P).toNat + 1) ⟨[], 0, .num 1, []⟩ 1
      rfl hM1 (by push_cast; omega) (by omega)
    rcases Option.ne_none_iff_exists.mp hrun with ⟨r, hr⟩
    exact ⟨(max 1 P).toNat + 1, r, hr.symm⟩
  · intro env fuel h
    have hf : env = fun _ _ => HttpOutcome.reqError := funext fun p => funext (h p)
    subst hf
    rfl

/-- C6 counterexample: every response of `envGrow` reports a finite `pages`
value (`p + 2` on page `p`), yet the run never terminates — each success
re-reads the bound and moves it one past the next page — refuting
"terminates after finitely many iterations whenever each response reports a
finite pages value". -/
theorem c6_counterexample : ¬ Terminates envGrow := by
  rintro ⟨fuel, r, h⟩
  have h0 := envGrow_never_stops fuel 0 [] []
  rw [fetch_vacancies] at h
  rw [show (JVal.num 1) = JVal.num (((0 : Nat) : Int) + 1) by norm_num] at h
  rw [h0] at h
  cases h

/-- C6 witness: both halves of the amended theorem at the all-fail
environment. -/
theorem c6_witness :
    Terminates (fun _ _ => .reqError) ∧
    fetch_vacancies (fun _ _ => .reqError) 3 =
      some (.ok ⟨[], 1, .num 1, [.req 0 1, .sleep 2, .req 0 2, .sleep 4, .req 0 3]⟩) :=
  ⟨c6_termination.1 (fun _ _ => .reqError) 0 (fun _ _ => le_refl 0),
    c6_termination.2 (fun _ _ => .reqError) 1 (fun _ _ => rfl)⟩

/-- C7: a record is produced only when the lowercased `area.name` contains
the keyword (items with `area` or `area.name` absent default to the empty
city and are excluded), so every record ever appended to the accumulated
sequence has a city containing `"сыктывкар"` — an invariant of the whole
run. -/
theorem c7_city_invariant :
    (∀ (item : JVal) (rec : Vacancy), extract_item item = some rec →
        strContains rec.city "сыктывкар" = true) ∧
    (∀ (env : Nat → Nat → HttpOutcome) (fuel : Nat) (stf : RunState),
        fetch_vacancies env fuel = some (.ok stf) →
        ∀ rec ∈ stf.vacancies, strContains rec.city "сыктывкар" = true) := by
  constructor
  · exact extract_item_city
  · intro env fuel stf h
    refine runLoop_vacancies_invariant env _ extract_item_city fuel _ stf h ?_
    intro r hr
    simp at hr

/-- C7 witness: both halves at concrete inputs — the full item and the run
that collects the all-defaults item. -/
theorem c7_witness :
    strContains vac0.city "сыктывкар" = true ∧
    strContains vac1.city "сыктывкар" = true :=
  ⟨c7_city_invariant.1 item0 vac0 rfl,
    c7_city_invariant.2 envOnePage 2 ⟨[vac1], 1, .num 1, [.req 0 1, .sleep 2]⟩ rfl vac1
      (List.mem_singleton.mpr rfl)⟩

/-- C8: on persistent request failure a page is attempted exactly
`MAX_RETRIES` = 3 times with backoff sleeps `REQUEST_DELAY * 1` and
`REQUEST_DELAY * 2` between consecutive attempts, the failure is reported
without an exception, and the loop skips to the next page index. -/
theorem c8_retry_exhaustion :
    (∀ (outc : Nat → HttpOutcome) (p : Nat), (∀ a, outc a = .reqError) →
        fetchPage outc p =
          .ok (none, [.req p 1, .sleep ((REQUEST_DELAY * 1 : Nat) : Int), .req p 2,
            .sleep ((REQUEST_DELAY * 2 : Nat) : Int), .req p 3])) ∧
    (∀ (env : Nat → Nat → HttpOutcome) (fuel : Nat) (st : RunState) (t : Int),
        st.total = .num t → (st.page : Int) < t → (∀ a, env st.page a = .reqError) →
        runLoop env (fuel + 1) st =
          runLoop env fuel
            ⟨st.vacancies, st.page + 1, st.total,
              st.evs ++
                [.req st.page 1, .sleep 2, .req st.page 2, .sleep 4, .req st.page 3]⟩) := by
  constructor
  · intro outc p h
    exact fetchPage_allFail outc p h
  · intro env fuel st t h h2 hall
    have hf := fetchPage_allFail (env st.page) st.page hall
    rw [runLoop, h]
    simp only [hf]
    rw [if_pos h2]

/-- C8 witness: both halves at concrete inputs. -/
theorem c8_witness :
    fetchPage (fun _ => .reqError) 7 =
      .ok (none, [.req 7 1, .sleep 2, .req 7 2, .sleep 4, .req 7 3]) ∧
    runLoop (fun _ _ => .reqError) 1 ⟨[], 0, .num 1, []⟩ =
      runLoop (fun _ _ => .reqError) 0
        ⟨[], 1, .num 1, [.req 0 1, .sleep 2, .req 0 2, .sleep 4, .req 0 3]⟩ :=
  ⟨c8_retry_exhaustion.1 (fun _ => .reqError) 7 (fun _ => rfl),
    c8_retry_exhaustion.2 (fun _ _ => .reqError) 0 ⟨[], 0, .num 1, []⟩ 1 rfl (by decide)
      (fun _ => rfl)⟩

/-- C9: end-to-end — the API reports 2 pages, page 0 carries one matching
item, every request for page 1 fails all three attempts; the run returns
normally with exactly the one page-0 record (and the trace shows the page-0
request, the politeness sleep, then the three failed attempts for page 1). -/
theorem c9_end_to_end :
    fetch_vacancies envC9 3 =
      some (.ok ⟨[vac0], 2, .num 2,
        [.req 0 1, .sleep 2, .req 1 1, .sleep 2, .req 1 2, .sleep 4, .req 1 3]⟩) := rfl

/-- C10: when `fetch_vacancies` returns an empty list, the `if
vacancies:` guard in `main` is false, so `save_to_excel` is never invoked — the run
emits no directory creation, no file-lock wait and no write, whatever the
filesystem state. -/
theorem c10_no_sink_when_empty (env : Nat → Nat → HttpOutcome) (fuel : Nat) (fs : FsModel)
    (st : RunState) (h : fetch_vacancies env fuel = some (.ok st))
    (h2 : st.vacancies = []) : main_model env fuel fs = [] := by
  rw [main_model, h]
  simp [h2]

/-- C10 witness: the all-fail run collects nothing and `main` touches no
file, even with the output file present and locked. -/
theorem c10_witness :
    main_model (fun _ _ => .reqError) 2 ⟨false, true, false, false⟩ = [] :=
  c10_no_sink_when_empty (fun _ _ => .reqError) 2 ⟨false, true, false, false⟩
    ⟨[], 1, .num 1, [.req 0 1, .sleep 2, .req 0 2, .sleep 4, .req 0 3]⟩ rfl rfl

end ParseHH
